import Mathlib

/-!
Shallow embedding of `src/stdio_peer.rs` (websocat endpoint-construction core):
console (`Stdio`), file (`OpenAsync`) and descriptor (`OpenFdAsync`) endpoint
construction, the process-wide `GlobalState` blocking-mode bookkeeping, and
`restore_blocking_status`.

OS effects are modelled by explicit state passing:
* a `ConsoleState` records the non-blocking flag of stdin and stdout;
* a `FileWorld` records existing filesystem paths and the open-descriptor table;
* an `FdWorld` records the open-descriptor table for descriptor adoption.
Syscall failures are modelled by per-call-site fault oracles (`StdioFaults`,
`FileFaults`, `FdFaults`): a `some e` entry makes that OS call fail with error
`e`, leaving the OS state of that call unchanged, exactly as the `?` operator in
the source propagates the `io::Error`.
-/

namespace Websocat

/-- An OS-level error (`std::io::Error`) surfaced by a failing syscall. -/
inductive OsError where
  | notFound
  | permissionDenied
  | other (code : Nat)
deriving DecidableEq, Repr

/-- Blocking-mode state of the process's console streams: `stdin_nonblocking = true`
means the `O_NONBLOCK` flag is set on standard input, likewise for output. -/
structure ConsoleState where
  stdin_nonblocking : Bool
  stdout_nonblocking : Bool
deriving DecidableEq, Repr

/-- `GlobalState` from `stdio_peer.rs` (lines 159-163): two flags recording that this
process switched the corresponding console stream from blocking to non-blocking
mode and is responsible for reverting it. `#[derive(Default)]` gives both `false`. -/
structure GlobalState where
  need_to_restore_stdin_blocking_status : Bool
  need_to_restore_stdout_blocking_status : Bool
deriving DecidableEq, Repr

/-- The `Default` value of `GlobalState`: both restore flags `false`. -/
def GlobalState.initial : GlobalState := ⟨false, false⟩

/-- `restore_blocking_status` (lines 171-183): for each console stream whose flag is
set, issue `set_nonblocking(false)`; the syscall's result is discarded
(`let _ = ...`), so restoration never fails and never sets non-blocking mode. -/
def restore_blocking_status (s : GlobalState) (c : ConsoleState) : ConsoleState :=
  let c1 := if s.need_to_restore_stdin_blocking_status then
    { c with stdin_nonblocking := false } else c
  if s.need_to_restore_stdout_blocking_status then
    { c1 with stdout_nonblocking := false } else c1

/-- `FileWrapper` (lines 187-209): a cloneable handle `Rc<RefCell<PollEvented<...>>>`
around one underlying OS descriptor. `fd` is the wrapped descriptor, `rc_cell`
the identity of the shared `Rc` allocation. -/
structure FileWrapper where
  fd : Int
  rc_cell : Nat
deriving DecidableEq, Repr

/-- `Clone` for `FileWrapper` is `Rc::clone`: a new lightweight handle to the very
same allocation, hence the same value in this embedding. -/
def FileWrapper.clone (f : FileWrapper) : FileWrapper := f

/-- The async-read / async-write objects that can serve as a half of a `Peer`:
the tokio stdin reader, the tokio stdout handle, or a `FileWrapper`. -/
inductive IoHandle where
  | stdinReader
  | stdoutHandle
  | fileWrapper (fw : FileWrapper)
deriving DecidableEq, Repr

/-- Modelled from the spec: a `Peer` is a pairing of an async-readable half and an
async-writable half (its definition lives outside `stdio_peer.rs`). -/
structure Peer where
  readHalf : IoHandle
  writeHalf : IoHandle
deriving DecidableEq, Repr

/-- `Peer::new(read_half, write_half)`. -/
def Peer.new (r w : IoHandle) : Peer := ⟨r, w⟩

/-- Fault oracle for the six OS calls made by `get_stdio_peer_impl`, in program
order: `get_nonblocking` on stdin, `new_nb` (set non-blocking) on stdin, the same
pair on stdout, then `into_reader` on stdin and `into_io` on stdout. -/
structure StdioFaults where
  get_nb_stdin : Option OsError
  set_nb_stdin : Option OsError
  get_nb_stdout : Option OsError
  set_nb_stdout : Option OsError
  into_reader_stdin : Option OsError
  into_handle_stdout : Option OsError
deriving DecidableEq, Repr

/-- The all-succeed oracle: every OS call during console construction succeeds. -/
def noStdioFaults : StdioFaults := ⟨none, none, none, none, none, none⟩

/-- The first OS error that `get_stdio_peer_impl` encounters under oracle `f`,
following the program order of the six calls; `none` when every call succeeds. -/
def StdioFaults.firstFault (f : StdioFaults) : Option OsError :=
  match f.get_nb_stdin with
  | some e => some e
  | none =>
  match f.set_nb_stdin with
  | some e => some e
  | none =>
  match f.get_nb_stdout with
  | some e => some e
  | none =>
  match f.set_nb_stdout with
  | some e => some e
  | none =>
  match f.into_reader_stdin with
  | some e => some e
  | none => f.into_handle_stdout

/-- Everything `get_stdio_peer_impl` produces: the construction outcome, the
`GlobalState` as left behind through its `&mut` argument, the console streams'
blocking modes, and, when construction completed, the by-value `GlobalState`
snapshot (`s_clone = s.clone()`) captured by the installed interrupt watcher. -/
structure StdioOutcome where
  outcome : Except OsError Peer
  gs : GlobalState
  console : ConsoleState
  watcher : Option GlobalState

/-- `get_stdio_peer_impl` (lines 117-152). In program order: probe stdin's
blocking mode and set the stdin restore flag when it was blocking; switch stdin
to non-blocking (`UnixFile::new_nb`); the same two steps for stdout; register
stdin with the reactor (`into_reader`) and stdout (`into_io`); clone the
`GlobalState` by value and install the interrupt watcher with that snapshot;
return `Peer::new(si, so)`. Every `?` failure returns at once with the flags and
stream modes as mutated so far. -/
def get_stdio_peer_impl (f : StdioFaults) (s : GlobalState) (c : ConsoleState) :
    StdioOutcome :=
  match f.get_nb_stdin with
  | some e => ⟨.error e, s, c, none⟩
  | none =>
  let s := if !c.stdin_nonblocking then
    { s with need_to_restore_stdin_blocking_status := true } else s
  match f.set_nb_stdin with
  | some e => ⟨.error e, s, c, none⟩
  | none =>
  let c := { c with stdin_nonblocking := true }
  match f.get_nb_stdout with
  | some e => ⟨.error e, s, c, none⟩
  | none =>
  let s := if !c.stdout_nonblocking then
    { s with need_to_restore_stdout_blocking_status := true } else s
  match f.set_nb_stdout with
  | some e => ⟨.error e, s, c, none⟩
  | none =>
  let c := { c with stdout_nonblocking := true }
  match f.into_reader_stdin with
  | some e => ⟨.error e, s, c, none⟩
  | none =>
  match f.into_handle_stdout with
  | some e => ⟨.error e, s, c, none⟩
  | none =>
  let s_clone := s
  ⟨.ok (Peer.new .stdinReader .stdoutHandle), s, c, some s_clone⟩

/-- The observable actions of the interrupt watcher closure (lines 142-147). -/
inductive WatcherEvent where
  | restoredConsole (snapshot : GlobalState)
  | processExit (code : Nat)
deriving DecidableEq, Repr

/-- Running the interrupt watcher's closure body on the first signal: it restores
the console from its captured snapshot, then calls `process::exit(0)`; the pair's
second component is the exit status and there is no continuation to return to. -/
def interrupt_watcher_run (snapshot : GlobalState) (c : ConsoleState) :
    ConsoleState × Nat :=
  (restore_blocking_status snapshot c, 0)

/-- The ordered action trace of one watcher invocation: restoration from the
snapshot strictly before process exit with status `0`, and nothing after it. -/
def interrupt_watcher_trace (snapshot : GlobalState) : List WatcherEvent :=
  [.restoredConsole snapshot, .processExit 0]

/-- Fault oracle for the OS calls of `get_file_peer_impl`: `open_file` covers a
failure of `OpenOptions::open` on an existing path (e.g. permission denied);
`set_nb` the `new_nb` non-blocking switch; `into_handle` reactor registration. -/
structure FileFaults where
  open_file : Option OsError
  set_nb : Option OsError
  into_handle : Option OsError
deriving DecidableEq, Repr

/-- The all-succeed oracle for file-endpoint construction. -/
def noFileFaults : FileFaults := ⟨none, none, none⟩

/-- OS world seen by file-endpoint construction: the set of existing filesystem
paths, the process's open-descriptor table, the next descriptor number the OS
hands out, and the next `Rc` allocation identity. -/
structure FileWorld where
  paths : List String
  openFds : List Int
  nextFd : Int
  nextCell : Nat
deriving DecidableEq, Repr

/-- Closing a descriptor removes its entry from the open-descriptor table. -/
def FileWorld.closeFd (w : FileWorld) (fd : Int) : FileWorld :=
  { w with openFds := w.openFds.filter (fun x => !(x == fd)) }

/-- Outcome of file-endpoint construction together with the resulting OS world. -/
structure FileOutcome where
  outcome : Except OsError Peer
  world : FileWorld

/-- `get_file_peer_impl` (lines 211-222): open the path with
`read(true).write(true).create(false)` - a missing path fails with the OS
not-found error and nothing is created; switch the opened descriptor to
non-blocking (`new_nb`); register it with the reactor (`into_io`); wrap the
registered handle once in `FileWrapper(Rc::new(RefCell::new(s)))` and return
`Peer::new(ss.clone(), ss)`. A `?` failure after the open drops the sole owner
of the descriptor, closing it. -/
def get_file_peer_impl (flt : FileFaults) (p : String) (w : FileWorld) :
    FileOutcome :=
  if p ∈ w.paths then
    match flt.open_file with
    | some e => ⟨.error e, w⟩
    | none =>
    let fd := w.nextFd
    let w1 : FileWorld := { w with openFds := fd :: w.openFds, nextFd := w.nextFd + 1 }
    match flt.set_nb with
    | some e => ⟨.error e, w1.closeFd fd⟩
    | none =>
    match flt.into_handle with
    | some e => ⟨.error e, w1.closeFd fd⟩
    | none =>
    let ss : FileWrapper := ⟨fd, w1.nextCell⟩
    let w2 : FileWorld := { w1 with nextCell := w1.nextCell + 1 }
    ⟨.ok (Peer.new (.fileWrapper ss.clone) (.fileWrapper ss)), w2⟩
  else
    ⟨.error .notFound, w⟩

/-- The first OS error `get_file_peer_impl` encounters on path `p` in world `w`
under oracle `flt`, in program order; `none` when construction succeeds. -/
def FileFaults.firstFault (flt : FileFaults) (p : String) (w : FileWorld) :
    Option OsError :=
  if p ∈ w.paths then
    match flt.open_file with
    | some e => some e
    | none =>
    match flt.set_nb with
    | some e => some e
    | none => flt.into_handle
  else
    some .notFound

/-- Fault oracle for the two OS calls of `get_fd_peer_impl`: the `new_nb`
non-blocking switch and the reactor registration. -/
structure FdFaults where
  set_nb : Option OsError
  into_handle : Option OsError
deriving DecidableEq, Repr

/-- The all-succeed oracle for descriptor-endpoint construction. -/
def noFdFaults : FdFaults := ⟨none, none⟩

/-- The first OS error `get_fd_peer_impl` encounters under oracle `flt`. -/
def FdFaults.firstFault (flt : FdFaults) : Option OsError :=
  match flt.set_nb with
  | some e => some e
  | none => flt.into_handle

/-- OS world seen by descriptor adoption: the open-descriptor table and the next
`Rc` allocation identity. -/
structure FdWorld where
  openFds : List Int
  nextCell : Nat
deriving DecidableEq, Repr

/-- Ownership-relevant events of `get_fd_peer_impl`, in the order they happen. -/
inductive FdEvent where
  | adoptOwnership (fd : Int)
  | setNb (fd : Int)
  | registerWithReactor (fd : Int)
  | closeOnDrop (fd : Int)
deriving DecidableEq, Repr

/-- Outcome of descriptor-endpoint construction: the construction result, the
resulting OS world, and the ordered ownership events. -/
structure FdOutcome where
  outcome : Except OsError Peer
  world : FdWorld
  events : List FdEvent

/-- `get_fd_peer_impl` (lines 229-236): `FromRawFd::from_raw_fd(fd)` adopts
ownership of the raw descriptor into an `FsFile` first; then `new_nb` switches
it to non-blocking and `into_io` registers it with the reactor. A `?` failure at
either later step drops the owning `FsFile`, which closes the adopted
descriptor. On success the descriptor stays open, owned by the shared
`FileWrapper` cell referenced by both halves of the returned `Peer`. -/
def get_fd_peer_impl (flt : FdFaults) (fd : Int) (w : FdWorld) : FdOutcome :=
  match flt.set_nb with
  | some e =>
    ⟨.error e, { w with openFds := w.openFds.filter (fun x => !(x == fd)) },
      [.adoptOwnership fd, .setNb fd, .closeOnDrop fd]⟩
  | none =>
  match flt.into_handle with
  | some e =>
    ⟨.error e, { w with openFds := w.openFds.filter (fun x => !(x == fd)) },
      [.adoptOwnership fd, .setNb fd, .registerWithReactor fd, .closeOnDrop fd]⟩
  | none =>
  let ss : FileWrapper := ⟨fd, w.nextCell⟩
  let w2 : FdWorld := { w with nextCell := w.nextCell + 1 }
  ⟨.ok (Peer.new (.fileWrapper ss.clone) (.fileWrapper ss)), w2,
    [.adoptOwnership fd, .setNb fd, .registerWithReactor fd]⟩

/-- Modelled from the spec: the `ConstructParams` construction context (defined
outside `stdio_peer.rs`) carries a reactor handle and mutable access to the
process-wide `GlobalState`. -/
structure ConstructParams where
  tokio_handle : Unit
  global_state : GlobalState

/-- Modelled from the spec: the `PeerConstructor` sum type - either exactly one
construction outcome, or a sequence of them for listener-like specifiers. -/
inductive PeerConstructor where
  | ServeOnce (outcome : Except OsError Peer)
  | ServeMultipleTimes (outcomes : List (Except OsError Peer))

/-- Modelled from the spec: `once` wraps a single construction outcome as the
one-shot `PeerConstructor` variant. -/
def once (x : Except OsError Peer) : PeerConstructor := .ServeOnce x

/-- `pub struct Stdio;` - the console specifier (no payload). -/
structure Stdio
deriving DecidableEq, Repr

/-- `pub struct OpenAsync(pub PathBuf);` - the file specifier. -/
structure OpenAsync where
  path : String
deriving DecidableEq, Repr

/-- `pub struct OpenFdAsync(pub i32);` - the descriptor specifier. -/
structure OpenFdAsync where
  fd : Int
deriving DecidableEq, Repr

/-- `impl Specifier for Stdio` (lines 29-36): construction runs
`get_stdio_peer(&mut p.global_state.borrow_mut().stdio, &p.tokio_handle)`,
mutating the shared `GlobalState` through the context, and wraps the outcome
with `once`. -/
def Stdio.construct (_self : Stdio) (f : StdioFaults) (p : ConstructParams)
    (c : ConsoleState) : PeerConstructor × ConstructParams × ConsoleState :=
  let r := get_stdio_peer_impl f p.global_state c
  (once r.outcome, { p with global_state := r.gs }, r.console)

/-- `impl Specifier for OpenAsync` (lines 69-76): construction runs
`get_file_peer(&self.0, &p.tokio_handle)` - it touches only the reactor handle
of the context, never `p.global_state` - and wraps the outcome with `once`. -/
def OpenAsync.construct (self : OpenAsync) (flt : FileFaults)
    (p : ConstructParams) (w : FileWorld) :
    PeerConstructor × ConstructParams × FileWorld :=
  let r := get_file_peer_impl flt self.path w
  (once r.outcome, p, r.world)

/-- `impl Specifier for OpenFdAsync` (lines 95-102): construction runs
`get_fd_peer(self.0, &p.tokio_handle)` - it touches only the reactor handle of
the context, never `p.global_state` - and wraps the outcome with `once`. -/
def OpenFdAsync.construct (self : OpenFdAsync) (flt : FdFaults)
    (p : ConstructParams) (w : FdWorld) :
    PeerConstructor × ConstructParams × FdWorld :=
  let r := get_fd_peer_impl flt self.fd w
  (once r.outcome, p, r.world)

/-- C1: for every initial combination of blocking-mode states of stdin and stdout,
constructing the console endpoint with `get_stdio_peer_impl` (all OS calls
succeeding, `GlobalState` at its default) and then running
`restore_blocking_status` on the resulting `GlobalState` leaves each of the two
streams in exactly the blocking-mode state it had before construction. -/
theorem stdio_construct_restore_roundtrip (c : ConsoleState) :
    restore_blocking_status
      (get_stdio_peer_impl noStdioFaults GlobalState.initial c).gs
      (get_stdio_peer_impl noStdioFaults GlobalState.initial c).console = c := by
  rcases c with ⟨i, o⟩
  cases i <;> cases o <;> rfl

/-- C2: during console endpoint construction each restore flag is set to `true`
if and only if the corresponding stream was observed in blocking mode before
this process changed it; and if a stream is already non-blocking at construction
time, restoration at teardown does not alter that stream's mode. -/
theorem stdio_restore_flags_spec (c : ConsoleState) :
    ((get_stdio_peer_impl noStdioFaults GlobalState.initial
        c).gs.need_to_restore_stdin_blocking_status = !c.stdin_nonblocking) ∧
    ((get_stdio_peer_impl noStdioFaults GlobalState.initial
        c).gs.need_to_restore_stdout_blocking_status = !c.stdout_nonblocking) ∧
    (c.stdin_nonblocking = true →
      (restore_blocking_status
        (get_stdio_peer_impl noStdioFaults GlobalState.initial c).gs
        (get_stdio_peer_impl noStdioFaults GlobalState.initial
          c).console).stdin_nonblocking
        = (get_stdio_peer_impl noStdioFaults GlobalState.initial
            c).console.stdin_nonblocking) ∧
    (c.stdout_nonblocking = true →
      (restore_blocking_status
        (get_stdio_peer_impl noStdioFaults GlobalState.initial c).gs
        (get_stdio_peer_impl noStdioFaults GlobalState.initial
          c).console).stdout_nonblocking
        = (get_stdio_peer_impl noStdioFaults GlobalState.initial
            c).console.stdout_nonblocking) := by
  rcases c with ⟨i, o⟩
  cases i <;> cases o <;> decide

/-- Witness for C2 at the concrete initial state where both console streams are
already non-blocking: restoration alters neither stream's mode. -/
theorem stdio_restore_flags_spec_witness :
    ((restore_blocking_status
        (get_stdio_peer_impl noStdioFaults GlobalState.initial ⟨true, true⟩).gs
        (get_stdio_peer_impl noStdioFaults GlobalState.initial
          ⟨true, true⟩).console).stdin_nonblocking
      = (get_stdio_peer_impl noStdioFaults GlobalState.initial
          ⟨true, true⟩).console.stdin_nonblocking) ∧
    ((restore_blocking_status
        (get_stdio_peer_impl noStdioFaults GlobalState.initial ⟨true, true⟩).gs
        (get_stdio_peer_impl noStdioFaults GlobalState.initial
          ⟨true, true⟩).console).stdout_nonblocking
      = (get_stdio_peer_impl noStdioFaults GlobalState.initial
          ⟨true, true⟩).console.stdout_nonblocking) :=
  ⟨(stdio_restore_flags_spec ⟨true, true⟩).2.2.1 rfl,
   (stdio_restore_flags_spec ⟨true, true⟩).2.2.2 rfl⟩

/-- C3: restoration is idempotent - for every `GlobalState` and every console
stream state, running `restore_blocking_status` twice in succession yields the
same final blocking-mode state of both streams as running it once. -/
theorem restore_blocking_status_idempotent (s : GlobalState) (c : ConsoleState) :
    restore_blocking_status s (restore_blocking_status s c)
      = restore_blocking_status s c := by
  rcases s with ⟨a, b⟩
  rcases c with ⟨i, o⟩
  cases a <;> cases b <;> cases i <;> cases o <;> rfl

/-- C4: on successful console construction the installed interrupt watcher holds
a by-value snapshot equal to the `GlobalState` at installation time, and on the
first interrupt it first restores the console from that snapshot and then exits
the process with status `0`, with no further action and no return to the normal
asynchronous flow. -/
theorem stdio_interrupt_watcher_spec (c c2 : ConsoleState) :
    (get_stdio_peer_impl noStdioFaults GlobalState.initial c).watcher
      = some (get_stdio_peer_impl noStdioFaults GlobalState.initial c).gs ∧
    interrupt_watcher_run
      (get_stdio_peer_impl noStdioFaults GlobalState.initial c).gs c2
      = (restore_blocking_status
          (get_stdio_peer_impl noStdioFaults GlobalState.initial c).gs c2, 0) ∧
    interrupt_watcher_trace
      (get_stdio_peer_impl noStdioFaults GlobalState.initial c).gs
      = [WatcherEvent.restoredConsole
          (get_stdio_peer_impl noStdioFaults GlobalState.initial c).gs,
         WatcherEvent.processExit 0] :=
  ⟨rfl, rfl, rfl⟩

/-- Helper: full outcome characterization of console construction - the outcome
is the first OS error in program order, or the stdio `Peer` when all calls
succeed. -/
theorem stdio_outcome_cases (f : StdioFaults) (s : GlobalState) (c : ConsoleState) :
    (∀ e, (get_stdio_peer_impl f s c).outcome = .error e ↔ f.firstFault = some e) ∧
    ((∃ pe, (get_stdio_peer_impl f s c).outcome = .ok pe) ↔ f.firstFault = none) := by
  rcases f with ⟨o1, o2, o3, o4, o5, o6⟩
  cases o1 <;> cases o2 <;> cases o3 <;> cases o4 <;> cases o5 <;> cases o6 <;>
    simp [get_stdio_peer_impl, StdioFaults.firstFault]

/-- Helper: full outcome characterization of file-endpoint construction. -/
theorem file_outcome_cases (flt : FileFaults) (p : String) (w : FileWorld) :
    (∀ e, (get_file_peer_impl flt p w).outcome = .error e
        ↔ flt.firstFault p w = some e) ∧
    ((∃ pe, (get_file_peer_impl flt p w).outcome = .ok pe)
        ↔ flt.firstFault p w = none) := by
  rcases flt with ⟨o1, o2, o3⟩
  by_cases hp : p ∈ w.paths <;>
    cases o1 <;> cases o2 <;> cases o3 <;>
      simp [get_file_peer_impl, FileFaults.firstFault, hp]

/-- Helper: full outcome characterization of descriptor-endpoint construction. -/
theorem fd_outcome_cases (flt : FdFaults) (fd : Int) (w : FdWorld) :
    (∀ e, (get_fd_peer_impl flt fd w).outcome = .error e
        ↔ flt.firstFault = some e) ∧
    ((∃ pe, (get_fd_peer_impl flt fd w).outcome = .ok pe)
        ↔ flt.firstFault = none) := by
  rcases flt with ⟨o1, o2⟩
  cases o1 <;> cases o2 <;>
    simp [get_fd_peer_impl, FdFaults.firstFault]

/-- C5: whenever file-endpoint or descriptor-endpoint construction returns a
`Peer`, its read half and its write half are the same `FileWrapper` handle over
the same single underlying descriptor; the file endpoint adds exactly one
descriptor to the open table (no duplication), the descriptor endpoint adds
none (it adopts the caller's). -/
theorem duplex_halves_share_handle (fltF : FileFaults) (p : String)
    (w : FileWorld) (fltD : FdFaults) (fd : Int) (wd : FdWorld) :
    (∀ pe, (get_file_peer_impl fltF p w).outcome = .ok pe →
      pe.readHalf = pe.writeHalf ∧
      pe.readHalf = .fileWrapper ⟨w.nextFd, w.nextCell⟩ ∧
      (get_file_peer_impl fltF p w).world.openFds = w.nextFd :: w.openFds) ∧
    (∀ pe, (get_fd_peer_impl fltD fd wd).outcome = .ok pe →
      pe.readHalf = pe.writeHalf ∧
      pe.readHalf = .fileWrapper ⟨fd, wd.nextCell⟩ ∧
      (get_fd_peer_impl fltD fd wd).world.openFds = wd.openFds) := by
  constructor
  · intro pe hpe
    rcases fltF with ⟨o1, o2, o3⟩
    by_cases hp : p ∈ w.paths <;>
      cases o1 <;> cases o2 <;> cases o3 <;>
        simp [get_file_peer_impl, hp, FileWrapper.clone, Peer.new] at hpe ⊢
    all_goals simp [← hpe]
  · intro pe hpe
    rcases fltD with ⟨o1, o2⟩
    cases o1 <;> cases o2 <;>
      simp [get_fd_peer_impl, FileWrapper.clone, Peer.new] at hpe ⊢
    all_goals simp [← hpe]

/-- Witness for C5: a concrete world with path `data` open succeeds, and both
halves of the returned `Peer` are the same wrapper over the one new descriptor;
likewise adopting descriptor `7` leaves the descriptor table unchanged. -/
theorem duplex_halves_share_handle_witness :
    ((Peer.new (.fileWrapper ⟨3, 0⟩) (.fileWrapper ⟨3, 0⟩)).readHalf
        = (Peer.new (.fileWrapper ⟨3, 0⟩) (.fileWrapper ⟨3, 0⟩)).writeHalf ∧
      (Peer.new (.fileWrapper ⟨3, 0⟩) (.fileWrapper ⟨3, 0⟩)).readHalf
        = .fileWrapper ⟨3, 0⟩ ∧
      (get_file_peer_impl noFileFaults "data"
          ⟨["data"], [9], 3, 0⟩).world.openFds = 3 :: [9]) ∧
    ((Peer.new (.fileWrapper ⟨7, 0⟩) (.fileWrapper ⟨7, 0⟩)).readHalf
        = (Peer.new (.fileWrapper ⟨7, 0⟩) (.fileWrapper ⟨7, 0⟩)).writeHalf ∧
      (Peer.new (.fileWrapper ⟨7, 0⟩) (.fileWrapper ⟨7, 0⟩)).readHalf
        = .fileWrapper ⟨7, 0⟩ ∧
      (get_fd_peer_impl noFdFaults 7 ⟨[7], 0⟩).world.openFds = [7]) :=
  ⟨(duplex_halves_share_handle noFileFaults "data" ⟨["data"], [9], 3, 0⟩
      noFdFaults 7 ⟨[7], 0⟩).1
      (Peer.new (.fileWrapper ⟨3, 0⟩) (.fileWrapper ⟨3, 0⟩)) rfl,
   (duplex_halves_share_handle noFileFaults "data" ⟨["data"], [9], 3, 0⟩
      noFdFaults 7 ⟨[7], 0⟩).2
      (Peer.new (.fileWrapper ⟨7, 0⟩) (.fileWrapper ⟨7, 0⟩)) rfl⟩

/-- C6: constructing a file endpoint for a path naming no existing entity fails
with the OS not-found error, creates no file and changes nothing else in the OS
world, and produces no `Peer`. -/
theorem open_async_missing_path (flt : FileFaults) (p : String) (w : FileWorld)
    (h : p ∉ w.paths) :
    (get_file_peer_impl flt p w).outcome = .error .notFound ∧
    (get_file_peer_impl flt p w).world = w := by
  simp [get_file_peer_impl, h]

/-- Witness for C6 at a concrete missing path. -/
theorem open_async_missing_path_witness :
    (get_file_peer_impl noFileFaults "missing" ⟨["data"], [], 3, 0⟩).outcome
        = .error .notFound ∧
    (get_file_peer_impl noFileFaults "missing" ⟨["data"], [], 3, 0⟩).world
        = ⟨["data"], [], 3, 0⟩ :=
  open_async_missing_path noFileFaults "missing" ⟨["data"], [], 3, 0⟩ (by decide)

/-- C7: for each of the three construction routines, the outcome is an error
exactly when some OS call failed, and that error is the first failing call's
underlying OS error; a `Peer` is returned exactly when no OS call failed, so no
`Peer` ever accompanies or follows a failure. -/
theorem os_failure_propagation (f : StdioFaults) (s : GlobalState)
    (c : ConsoleState) (fltF : FileFaults) (p : String) (w : FileWorld)
    (fltD : FdFaults) (fd : Int) (wd : FdWorld) :
    (∀ e, (get_stdio_peer_impl f s c).outcome = .error e
        ↔ f.firstFault = some e) ∧
    ((∃ pe, (get_stdio_peer_impl f s c).outcome = .ok pe)
        ↔ f.firstFault = none) ∧
    (∀ e, (get_file_peer_impl fltF p w).outcome = .error e
        ↔ fltF.firstFault p w = some e) ∧
    ((∃ pe, (get_file_peer_impl fltF p w).outcome = .ok pe)
        ↔ fltF.firstFault p w = none) ∧
    (∀ e, (get_fd_peer_impl fltD fd wd).outcome = .error e
        ↔ fltD.firstFault = some e) ∧
    ((∃ pe, (get_fd_peer_impl fltD fd wd).outcome = .ok pe)
        ↔ fltD.firstFault = none) :=
  ⟨(stdio_outcome_cases f s c).1, (stdio_outcome_cases f s c).2,
   (file_outcome_cases fltF p w).1, (file_outcome_cases fltF p w).2,
   (fd_outcome_cases fltD fd wd).1, (fd_outcome_cases fltD fd wd).2⟩

/-- C8: if console endpoint construction fails at any step (starting from the
default `GlobalState`), running `restore_blocking_status` on the partial
`GlobalState` left behind returns both console streams to exactly their
original blocking-mode states. -/
theorem stdio_failure_flags_restore (f : StdioFaults) (c : ConsoleState)
    (e : OsError)
    (_hfail : (get_stdio_peer_impl f GlobalState.initial c).outcome = .error e) :
    restore_blocking_status
      (get_stdio_peer_impl f GlobalState.initial c).gs
      (get_stdio_peer_impl f GlobalState.initial c).console = c := by
  rcases f with ⟨o1, o2, o3, o4, o5, o6⟩
  rcases c with ⟨i, o⟩
  cases o1 <;> cases o2 <;> cases o3 <;> cases o4 <;> cases o5 <;> cases o6 <;>
    cases i <;> cases o <;> rfl

/-- Witness for C8: construction failing while probing stdout (both streams
initially blocking) leaves flags that restore both streams to blocking. -/
theorem stdio_failure_flags_restore_witness :
    restore_blocking_status
      (get_stdio_peer_impl
        ⟨none, none, some OsError.permissionDenied, none, none, none⟩
        GlobalState.initial ⟨false, false⟩).gs
      (get_stdio_peer_impl
        ⟨none, none, some OsError.permissionDenied, none, none, none⟩
        GlobalState.initial ⟨false, false⟩).console = ⟨false, false⟩ :=
  stdio_failure_flags_restore
    ⟨none, none, some OsError.permissionDenied, none, none, none⟩
    ⟨false, false⟩ OsError.permissionDenied rfl

/-- C9: file-endpoint and descriptor-endpoint construction leave the
process-wide `GlobalState` in the construction context unchanged, while console
construction can mutate it (so the console path is the only mutator; restoration
takes the state immutably and returns only a console state). -/
theorem nonconsole_construct_preserves_global_state (a : OpenAsync)
    (flt : FileFaults) (pa : ConstructParams) (w : FileWorld) (d : OpenFdAsync)
    (fltD : FdFaults) (pd : ConstructParams) (wd : FdWorld) :
    ((a.construct flt pa w).2.1.global_state = pa.global_state) ∧
    ((d.construct fltD pd wd).2.1.global_state = pd.global_state) ∧
    (∃ (f : StdioFaults) (p0 : ConstructParams) (c0 : ConsoleState),
      (Stdio.construct ⟨⟩ f p0 c0).2.1.global_state ≠ p0.global_state) :=
  ⟨rfl, rfl,
   ⟨noStdioFaults, ⟨(), GlobalState.initial⟩, ⟨false, false⟩, by decide⟩⟩

/-- C10: descriptor adoption takes ownership first - the event trace of
`get_fd_peer_impl` begins with `adoptOwnership` before any non-blocking switch
or reactor registration - and if either later step fails, construction returns
that OS error while the adopted descriptor is nevertheless closed, so the
caller's descriptor is consumed even on failure. -/
theorem fd_adoption_consumes_descriptor (flt : FdFaults) (fd : Int)
    (w : FdWorld) :
    ((get_fd_peer_impl flt fd w).events.head?
        = some (.adoptOwnership fd)) ∧
    (∀ e, flt.firstFault = some e →
      (get_fd_peer_impl flt fd w).outcome = .error e ∧
      fd ∉ (get_fd_peer_impl flt fd w).world.openFds ∧
      FdEvent.closeOnDrop fd ∈ (get_fd_peer_impl flt fd w).events) := by
  rcases flt with ⟨o1, o2⟩
  cases o1 <;> cases o2 <;>
    simp [get_fd_peer_impl, FdFaults.firstFault, List.mem_filter]

/-- Witness for C10: adopting descriptor `7` with a failing non-blocking switch
returns the error and closes descriptor `7`. -/
theorem fd_adoption_consumes_descriptor_witness :
    (get_fd_peer_impl ⟨some (OsError.other 5), none⟩ 7 ⟨[7, 3], 0⟩).outcome
        = .error (OsError.other 5) ∧
    (7 : Int) ∉ (get_fd_peer_impl ⟨some (OsError.other 5), none⟩ 7
        ⟨[7, 3], 0⟩).world.openFds ∧
    FdEvent.closeOnDrop 7 ∈ (get_fd_peer_impl ⟨some (OsError.other 5), none⟩ 7
        ⟨[7, 3], 0⟩).events :=
  (fd_adoption_consumes_descriptor ⟨some (OsError.other 5), none⟩ 7
    ⟨[7, 3], 0⟩).2 (OsError.other 5) rfl

end Websocat
